import Mathlib

/-!
# Verification of the gonobo/jsonapi filter expression language

Shallow embedding of the filter subsystem of the gonobo/jsonapi repository:
the expression model (`query` package), the precedence-climbing AST builder
(`query/filter/criteria.go`), the two serializers
(`query/filter/generator.go` and `query/filter/builder.go`), the
`go/parser`-based query parser (`query/filter/parser.go`) and the
transformer registries.
-/

namespace JsonapiFilter

instance {ε α : Type} [DecidableEq ε] [DecidableEq α] : DecidableEq (Except ε α) := fun a b =>
  match a, b with
  | .error e, .error f =>
    if h : e = f then .isTrue (by rw [h]) else .isFalse (by simp [h])
  | .ok x, .ok y =>
    if h : x = y then .isTrue (by rw [h]) else .isFalse (by simp [h])
  | .error _, .ok _ => .isFalse (by simp)
  | .ok _, .error _ => .isFalse (by simp)

/-! ## Expression model

Translated from the `query` package (`FilterExpression` and its variants):
`Filter` (atomic), `AndFilter`, `OrFilter`, `NotFilter`, `IdentityFilter`
and the custom escape hatch.  The composite variants hold interface values
in Go; per the documented invariant both operands of `AndFilter`/`OrFilter`
and the operand of `NotFilter` are non-nil, so they are modelled as total
fields. -/
inductive FilterExpr where
  | filter (name condition value : String)
  | andFilter (left right : FilterExpr)
  | orFilter (left right : FilterExpr)
  | notFilter (operand : FilterExpr)
  | identityFilter
  | customFilter
  deriving DecidableEq, Repr

/-- The `String()` methods of the expression variants, translated from the
`query` package: atomic filters render as `[name condition 'value']`, AND as
`(l && r)`, OR as `(l || r)`, NOT as `!x`, identity as `TRUE`.  `CustomFilter`
values provide their own `String()` in Go; the model uses a fixed marker,
which no theorem depends on. -/
def filterExprString : FilterExpr → String
  | .filter n c v => "[" ++ n ++ " " ++ c ++ " \x27" ++ v ++ "\x27]"
  | .andFilter l r => "(" ++ filterExprString l ++ " && " ++ filterExprString r ++ ")"
  | .orFilter l r => "(" ++ filterExprString l ++ " || " ++ filterExprString r ++ ")"
  | .notFilter x => "!" ++ filterExprString x
  | .identityFilter => "TRUE"
  | .customFilter => "custom"

/-! ## Tokenizer and AST builder

Translated from `src/query/filter/criteria.go` (second document): `assoc`,
`symbol`, `token`, `lex`, `astBuilder`. -/

inductive Assoc where
  | undefined
  | left
  | right
  deriving DecidableEq

inductive Symbol where
  | undefined
  | opAND
  | opOR
  | opNOT
  | var
  deriving DecidableEq, Repr

/-- `symbol.isOperation` from criteria.go. -/
def isOperation (s : Symbol) : Bool :=
  [Symbol.opAND, Symbol.opOR, Symbol.opNOT].contains s

/-- `symbol.precedence` from criteria.go: NOT=3, AND=2, OR=1, otherwise -1. -/
def symbolPrecedence : Symbol → Int
  | .opNOT => 3
  | .opAND => 2
  | .opOR => 1
  | _ => -1

/-- `symbol.associativity` from criteria.go: every operator is
left-associative. -/
def symbolAssociativity : Symbol → Assoc
  | .opNOT => .left
  | .opAND => .left
  | .opOR => .left
  | _ => .undefined

/-- ASCII fragment of Go `strings.ToLower`, sufficient for the ASCII
keywords and identifiers of the wire syntax. -/
def lowerChar (c : Char) : Char :=
  if c >= 'A' && c <= 'Z' then Char.ofNat (c.toNat + 32) else c

def toLowerL (s : List Char) : List Char := s.map lowerChar

def lowerStr (s : String) : String := String.mk (toLowerL s.data)

/-- Keyword classification from `lex.tokenFromString`: the lowercased text is
compared against the `OperationAND`/`OperationOR`/`OperationNOT` constants
(`"and"`, `"or"`, `"not"` from parser.go); anything else is a variable. -/
def symbolOf (s : String) : Symbol :=
  let l := lowerStr s
  if l = "and" then .opAND
  else if l = "not" then .opNOT
  else if l = "or" then .opOR
  else .var

structure Token where
  value : String
  symbol : Symbol
  deriving DecidableEq, Repr

/-- `lex.tokenFromString` from criteria.go. -/
def tokenFromString (s : String) : Token := ⟨s, symbolOf s⟩

/-- AST node from criteria.go: `node { token; left, right *node }`.  The two
child pointers are nullable; the four constructors enumerate the four
nil/non-nil combinations (`rightNode`, with only the right child set, is
never produced by the builder but belongs to the struct's state space). -/
inductive Node where
  | leafNode (token : Token)
  | unaryNode (token : Token) (left : Node)
  | rightNode (token : Token) (right : Node)
  | binaryNode (token : Token) (left right : Node)
  deriving DecidableEq, Repr

/-- Lexer state from criteria.go: a cursor over the token strings. -/
structure LexState where
  position : Nat
  tokens : List String
  deriving DecidableEq, Repr

/-- `lex.peek`: returns the classified token at the cursor, or nothing once
the position passes the end. -/
def lexPeek (st : LexState) : Option Token :=
  (st.tokens[st.position]?).map tokenFromString

/-- `lex.next`: peek, then advance the cursor (the cursor advances even past
the end, as in the Go code). -/
def lexNext (st : LexState) : Option Token × LexState :=
  (lexPeek st, { st with position := st.position + 1 })

mutual

/-- `astBuilder.primary` from criteria.go, with a fuel parameter making the
mutual recursion structural.  Consumes one token: NOT recursively takes the
immediately following primary as its `left` child; a variable becomes a leaf;
anything else (a leading binary operator, or end of input) is an error. -/
def primaryF : Nat → LexState → Except String (Node × LexState)
  | 0, _ => .error "fuel exhausted"
  | fuel + 1, st =>
    match lexNext st with
    | (none, _) => .error "empty token list"
    | (some tok, st1) =>
      match tok.symbol with
      | .opNOT =>
        match primaryF fuel st1 with
        | .error e => .error e
        | .ok (left, st2) => .ok (.unaryNode tok left, st2)
      | .var => .ok (.leafNode tok, st1)
      | _ => .error "expected variable as first token"

/-- The outer loop of `astBuilder.parseNode` from criteria.go: while the next
token is an operation with precedence at least `minPrec`, consume it, parse a
right-hand primary, run the lookahead loop, and fold the result into a new
node on the left. -/
def parseNodeF : Nat → Node → Int → LexState → Except String (Node × LexState)
  | 0, _, _, _ => .error "fuel exhausted"
  | fuel + 1, left, minPrec, st =>
    match lexPeek st with
    | none => .ok (left, st)
    | some op =>
      if isOperation op.symbol = false ∨ symbolPrecedence op.symbol < minPrec then
        .ok (left, st)
      else
        let st1 := (lexNext st).2
        match primaryF fuel st1 with
        | .error e => .error e
        | .ok (right, st2) =>
          match innerLoopF fuel right op st2 with
          | .error e => .error e
          | .ok (right1, st3) =>
            parseNodeF fuel (.binaryNode op left right1) minPrec st3

/-- The lookahead loop inside `astBuilder.parseNode`: while the lookahead is
an operation that binds strictly tighter than the current operator (or is a
right-associative operator of equal precedence, which never happens here),
recursively raise the precedence on the right operand. -/
def innerLoopF : Nat → Node → Token → LexState → Except String (Node × LexState)
  | 0, _, _, _ => .error "fuel exhausted"
  | fuel + 1, right, op, st =>
    match lexPeek st with
    | none => .ok (right, st)
    | some la =>
      if isOperation la.symbol = false then .ok (right, st)
      else
        let opPrec := symbolPrecedence op.symbol
        let laPrec := symbolPrecedence la.symbol
        let laAssoc := symbolAssociativity la.symbol
        if ¬ (laPrec > opPrec ∨ (laAssoc = Assoc.right ∧ laPrec = opPrec)) then
          .ok (right, st)
        else
          match parseNodeF fuel right laPrec st with
          | .error e => .error e
          | .ok (right1, st1) => innerLoopF fuel right1 op st1

end

/-- `astBuilder.build` from criteria.go: parse a primary, then climb
precedence starting at 0.  The fuel `3 * tokens.length + 3` dominates the
recursion depth between consumed tokens (each cycle
`parseNode → innerLoop → parseNode` consumes at least one token). -/
def buildModel (tokens : List String) : Except String Node :=
  let fuel := 3 * tokens.length + 3
  match primaryF fuel ⟨0, tokens⟩ with
  | .error e => .error e
  | .ok (n, st) =>
    match parseNodeF fuel n 0 st with
    | .error e => .error e
    | .ok (n1, _) => .ok n1

/-- Leaf node for a variable token. -/
def leaf (s : String) : Node := .leafNode (tokenFromString s)

/-- Binary node combining two subtrees under an operator token. -/
def binNode (s : String) (l r : Node) : Node := .binaryNode (tokenFromString s) l r

/-! ## Query parameter maps

`url.Values` / `map[string]string` model: an association list with unique
keys.  `vget` is `url.Values.Get` (first value, or `""` when absent);
`vset` is `url.Values.Set` (replace the values for the key). -/

abbrev Values : Type := List (String × String)

def vget (m : Values) (k : String) : String :=
  match List.find? (fun p => p.1 == k) m with
  | some p => p.2
  | none => ""

def vhas (m : Values) (k : String) : Bool :=
  (List.find? (fun p => p.1 == k) m).isSome

def vset (m : Values) (k v : String) : Values :=
  List.filter (fun p => ¬ p.1 == k) m ++ [(k, v)]

/-- The three `filter[<id>][name|condition|value]` keys of one parameter
group, from `filter.set` in parser.go / `criteria.queryParams` in
criteria.go. -/
def keyName (id : String) : String := "filter[" ++ id ++ "][name]"

def keyCondition (id : String) : String := "filter[" ++ id ++ "][condition]"

def keyValue (id : String) : String := "filter[" ++ id ++ "][value]"

/-- Emit one atomic filter's three fields under its identifier. -/
def setGroup (m : Values) (id name cond value : String) : Values :=
  vset (vset (vset m (keyName id) name) (keyCondition id) cond) (keyValue id) value

/-! ## Serializer, v2: `Generate` from `src/query/filter/generator.go`

State of a `urlQueryGenerator`: a positional counter (a pointer to an int in
Go), the accumulated textual form, and the shared parameter map.  The
evaluation of an expression is modelled as a function from the current
counter value and map to the produced text, the counter value as left behind
in the generator's own counter object, the updated map, and the list of
collected errors (`errors.Join` keeps every non-nil error). -/

/-- `fmt.Sprintf("p%02d", n)`: identifiers are zero-padded to two digits. -/
def identFormat (n : Nat) : String :=
  "p" ++ (if n < 10 then "0" ++ toString n else toString n)

/-- One step of `query.EvaluateFilter(generator, expr)` double dispatch, per
the `Evaluate*` methods of `urlQueryGenerator`:
* atomic: pre-increment the shared counter, emit the parameter group, the
  text is the identifier;
* AND/OR: both children evaluated left then right with the *same* counter
  and map, texts joined with `" and "` / `" or "`, errors joined;
* NOT: the operand is evaluated with a *fresh* counter (`new(counter)` in
  the source) starting at 0, text is `"not "` ++ operand text; the
  generator's own counter is untouched;
* identity/custom: `errors.ErrUnsupported`. -/
def genEval : FilterExpr → Nat → Values → String × Nat × Values × List String
  | .filter n c v, cnt, q =>
    let cnt1 := cnt + 1
    let id := identFormat cnt1
    (id, cnt1, setGroup q id n c v, [])
  | .andFilter l r, cnt, q =>
    let (lt, c1, q1, e1) := genEval l cnt q
    let (rt, c2, q2, e2) := genEval r c1 q1
    (lt ++ " and " ++ rt, c2, q2, e1 ++ e2)
  | .orFilter l r, cnt, q =>
    let (lt, c1, q1, e1) := genEval l cnt q
    let (rt, c2, q2, e2) := genEval r c1 q1
    (lt ++ " or " ++ rt, c2, q2, e1 ++ e2)
  | .notFilter x, cnt, q =>
    let (xt, _, q1, e1) := genEval x 0 q
    ("not " ++ xt, cnt, q1, e1)
  | .identityFilter, cnt, q => ("", cnt, q, ["unsupported operation"])
  | .customFilter, cnt, q => ("", cnt, q, ["unsupported operation"])

/-- `Generate(expr, q)` from generator.go: run the generator with a fresh
counter, then set the `q` parameter to the accumulated text (this happens
whether or not errors occurred), and report the joined errors. -/
def generateModel (e : FilterExpr) (q : Values) : Values × List String :=
  let (s, _, q1, errs) := genEval e 0 q
  (vset q1 "q" s, errs)

/-! ## Serializer, v1: `BuildQuery` from `src/query/filter/builder.go`

A `queryBuilder` holds an index, a per-node string accumulator and the shared
parameter map.  `clone` increments the *parent's* index and hands the new
value to the child, so sibling children receive index+1 and index+2.  Atomic
filters emit their group under `p<index>` (via `criteria.queryParams`) and
write that name as their text.  The NOT case writes the literal string
`"NOT %s"`: the source passes the format string to `WriteString` without
`fmt.Sprintf`, so the operand's text never appears. -/
def qbEval : FilterExpr → Nat → Values → String × Nat × Values × List String
  | .filter n c v, idx, p =>
    let id := "p" ++ toString idx
    (id, idx, setGroup p id n c v, [])
  | .andFilter l r, idx, p =>
    let i1 := idx + 1
    let i2 := idx + 2
    let (lt, _, p1, e1) := qbEval l i1 p
    let (rt, _, p2, e2) := qbEval r i2 p1
    (lt ++ " AND " ++ rt, i2, p2, e1 ++ e2)
  | .orFilter l r, idx, p =>
    let i1 := idx + 1
    let i2 := idx + 2
    let (lt, _, p1, e1) := qbEval l i1 p
    let (rt, _, p2, e2) := qbEval r i2 p1
    (lt ++ " OR " ++ rt, i2, p2, e1 ++ e2)
  | .notFilter x, idx, p =>
    let i1 := idx + 1
    let (_, _, p1, e1) := qbEval x i1 p
    ("NOT %s", i1, p1, e1)
  | .identityFilter, idx, p =>
    ("", idx, p, ["identity expression not supported for building queries"])
  | .customFilter, idx, p =>
    ("", idx, p, ["custom expressions not supported by query filter builder"])

/-- `BuildQuery` from builder.go: evaluate with index 0 over an empty map;
when no error occurred, store the accumulated text under `q`. -/
def buildQueryModel (e : FilterExpr) : Values × List String :=
  let (s, _, p, errs) := qbEval e 0 []
  (if errs = [] then vset p "q" s else p, errs)

/-! ## Transformer registries

v2 (`TransformerMux` from `src/query/filter/criteria.go`, third document)
and v1 (`TransformerMux` / `StrictTransformerMux` from
`src/unnamed/part_008`). -/

/-- An atomic filter token handed to a transformer: name, condition, value. -/
structure FilterTok where
  name : String
  condition : String
  value : String
  deriving DecidableEq, Repr

/-- A registered transformer: `TransformCriteria`/`TransformFilterToken`
returns a replacement expression or an error. -/
def Transform : Type := FilterTok → Except String FilterExpr

/-- Result of the v2 `TransformerMux.TransformFilterToken`.  `nilPanic`
models the Go run-time panic raised by invoking a method on the nil
`Transformer` interface value (the zero value produced by the failed map
lookup). -/
inductive MuxResult where
  | ok (e : FilterExpr)
  | err (msg : String)
  | nilPanic
  deriving DecidableEq, Repr

/-- v2 `TransformerMux.TransformFilterToken` from criteria.go:
`transformer, ok := t.Transformers[token.Name]`; when the lookup fails *and*
the mux is strict, return the "unknown token" error; otherwise call
`transformer.TransformFilterToken(token)` — which, when the lookup failed
(lenient mode), is a method call on a nil interface and panics. -/
def muxTransformFilterToken (strict : Bool) (transformers : List (String × Transform))
    (tok : FilterTok) : MuxResult :=
  match List.find? (fun p => p.1 == tok.name) transformers with
  | none =>
    if strict then .err ("unknown token \x27" ++ tok.name ++ "\x27")
    else .nilPanic
  | some p =>
    match p.2 tok with
    | .ok e => .ok e
    | .error m => .err m

/-- v1 `PassthroughTransformer` from part_008: returns the criteria
unchanged (as the atomic expression itself). -/
def passthroughTransform : Transform := fun c => .ok (.filter c.name c.condition c.value)

/-- v1 `TransformerMux.TransformCriteria` from part_008: look up by name;
fall back to the passthrough transformer when no entry matches. -/
def v1MuxTransformCriteria (m : List (String × Transform)) (c : FilterTok) :
    Except String FilterExpr :=
  match List.find? (fun p => p.1 == c.name) m with
  | none => passthroughTransform c
  | some p => p.2 c

/-- v1 `StrictTransformerMux.TransformCriteria` from part_008: look up by
name; fail with "unknown filter" when no entry matches. -/
def v1StrictMuxTransformCriteria (m : List (String × Transform)) (c : FilterTok) :
    Except String FilterExpr :=
  match List.find? (fun p => p.1 == c.name) m with
  | none => .error ("unknown filter: " ++ c.name)
  | some p => p.2 c

/-! ## Parser, v1: `ParseWithTransform` from `src/query/filter/parser.go`

The query string is lowercased, every substring occurrence of
`and`/`or`/`not` is replaced by `&&`/`||`/`!` (`strings.ReplaceAll`), the
result is parsed as a Go expression (`go/parser.ParseExpr`), and the Go AST
is walked by `urlQueryParser` substituting identifiers with their parameter
groups. -/

/-- Go `strings.ReplaceAll` with a non-empty pattern: replace every leftmost
non-overlapping occurrence.  Fueled by the input length. -/
def replaceGo : Nat → List Char → List Char → List Char → List Char
  | 0, s, _, _ => s
  | fuel + 1, s, old, new =>
    match s with
    | [] => []
    | c :: rest =>
      if old ≠ [] ∧ old.isPrefixOf (c :: rest) then
        new ++ replaceGo fuel (List.drop old.length (c :: rest)) old new
      else
        c :: replaceGo fuel rest old new

def replaceAllL (s old new : List Char) : List Char :=
  replaceGo s.length s old new

/-- The operator-substitution preprocessing of `ParseWithTransform`:
lowercase, then `and`→`&&`, `or`→`||`, `not`→`!`, in that order. -/
def preprocessQ (q : String) : List Char :=
  let q1 := toLowerL q.data
  let q2 := replaceAllL q1 "and".data "&&".data
  let q3 := replaceAllL q2 "or".data "||".data
  replaceAllL q3 "not".data "!".data

/-- Tokens of the fragment of the Go expression grammar reachable from the
preprocessed query strings: identifiers, `&&`, `||`, `!`. -/
inductive GoTok where
  | identTok (s : String)
  | landTok
  | lorTok
  | bangTok
  deriving DecidableEq, Repr

def isIdentChar (c : Char) : Bool :=
  c.isAlpha || c.isDigit || c == '_'

/-- Model of the Go scanner on the reachable fragment.  A character outside
the fragment (e.g. a lone `&` or `|`, which Go scans as a bitwise operator
that `urlQueryParser` would later reject as unsupported, or an illegal
character) is folded into a scan error; either way `ParseWithTransform`
fails.  Identifiers are taken greedily over letters/digits/underscores. -/
def scanGo : Nat → List Char → Except String (List GoTok)
  | 0, _ => .error "fuel exhausted"
  | _ + 1, [] => .ok []
  | fuel + 1, c :: rest =>
    if c = ' ' then scanGo fuel rest
    else if c = '&' then
      match rest with
      | '&' :: r2 => (scanGo fuel r2).map (GoTok.landTok :: ·)
      | _ => .error "unsupported token"
    else if c = '|' then
      match rest with
      | '|' :: r2 => (scanGo fuel r2).map (GoTok.lorTok :: ·)
      | _ => .error "unsupported token"
    else if c = '!' then (scanGo fuel rest).map (GoTok.bangTok :: ·)
    else if isIdentChar c then
      let tail := List.takeWhile isIdentChar rest
      let remaining := List.dropWhile isIdentChar rest
      (scanGo fuel remaining).map (GoTok.identTok (String.mk (c :: tail)) :: ·)
    else .error "illegal character"

/-- Go expressions over the reachable fragment: identifiers, `&&`, `||`,
unary `!`. -/
inductive GoExpr where
  | gIdent (s : String)
  | gAnd (x y : GoExpr)
  | gOr (x y : GoExpr)
  | gNot (x : GoExpr)
  deriving DecidableEq, Repr

/-- Precedence of the binary tokens per `go/token`: `||` = 1, `&&` = 2. -/
def goTokPrec : GoTok → Int
  | .lorTok => 1
  | .landTok => 2
  | _ => 0

def goTokExpr (t : GoTok) (x y : GoExpr) : GoExpr :=
  match t with
  | .lorTok => .gOr x y
  | _ => .gAnd x y

mutual

/-- `parseUnaryExpr` of go/parser on the fragment: `!` applies to a unary
expression; an identifier is an operand; anything else is an error. -/
def goUnaryF : Nat → List GoTok → Except String (GoExpr × List GoTok)
  | 0, _ => .error "fuel exhausted"
  | fuel + 1, ts =>
    match ts with
    | .bangTok :: rest =>
      match goUnaryF fuel rest with
      | .error e => .error e
      | .ok (e, r) => .ok (.gNot e, r)
    | .identTok s :: rest => .ok (.gIdent s, rest)
    | _ => .error "expected operand"

/-- `parseBinaryExpr(prec1)` of go/parser: parse a unary expression, then
fold in binary operators of precedence at least `prec1`, parsing each right
operand at precedence one higher (left associativity). -/
def goBinF : Nat → Int → List GoTok → Except String (GoExpr × List GoTok)
  | 0, _, _ => .error "fuel exhausted"
  | fuel + 1, minPrec, ts =>
    match goUnaryF fuel ts with
    | .error e => .error e
    | .ok (x, r) => goBinLoopF fuel x minPrec r

def goBinLoopF : Nat → GoExpr → Int → List GoTok → Except String (GoExpr × List GoTok)
  | 0, _, _, _ => .error "fuel exhausted"
  | fuel + 1, x, minPrec, ts =>
    match ts with
    | [] => .ok (x, [])
    | t :: rest =>
      if goTokPrec t < minPrec then .ok (x, t :: rest)
      else
        match goBinF fuel (goTokPrec t + 1) rest with
        | .error e => .error e
        | .ok (y, r) => goBinLoopF fuel (goTokExpr t x y) minPrec r

end

/-- `go/parser.ParseExpr` on the fragment: parse at the lowest binary
precedence and require the whole token stream to be consumed. -/
def goParseExpr (ts : List GoTok) : Except String GoExpr :=
  match goBinF (2 * ts.length + 3) 1 ts with
  | .error e => .error e
  | .ok (e, []) => .ok e
  | .ok (_, _ :: _) => .error "expected EOF"

/-- A v1 transformer as seen by `urlQueryParser.visitIdent`: the Go call
returns an expression (possibly nil) and an error (possibly nil). -/
def TransformPair : Type := FilterTok → Option FilterExpr × Option String

def passthroughPair : TransformPair :=
  fun c => (some (.filter c.name c.condition c.value), none)

/-- The `urlQueryParser` walk from parser.go.  `visitIdent` reads the
identifier's parameter group, validates that all three fields are present
(the model of `validator.All` collects every failing rule's message, in the
source order name/value/condition) and applies the transformer;
`visitUnaryExpr`/`visitBinaryExpr` recurse on cloned parsers and join the
children's errors (`errors.Join`: both children are walked even when the
first fails).  A composite whose child produced no expression carries a nil
child in Go; since that happens exactly when errors are present — in which
case `ParseWithTransform` discards the expression — the model returns no
expression for it. -/
def walkGo (q : Values) (tr : TransformPair) : GoExpr → Option FilterExpr × List String
  | .gIdent s =>
    let c : FilterTok := ⟨vget q (keyName s), vget q (keyCondition s), vget q (keyValue s)⟩
    let errs :=
      (if c.name = "" then ["filter[" ++ s ++ "][name] is required"] else []) ++
      (if c.value = "" then ["filter[" ++ s ++ "][value] is required"] else []) ++
      (if c.condition = "" then ["filter[" ++ s ++ "][condition] is required"] else [])
    if errs = [] then
      let (e?, err?) := tr c
      (e?, err?.toList)
    else (none, errs)
  | .gNot x =>
    let (e?, errs) := walkGo q tr x
    (e?.map .notFilter, errs)
  | .gAnd x y =>
    let (le, les) := walkGo q tr x
    let (re, res) := walkGo q tr y
    (match le, re with
     | some a, some b => some (.andFilter a b)
     | _, _ => none,
     les ++ res)
  | .gOr x y =>
    let (le, les) := walkGo q tr x
    let (re, res) := walkGo q tr y
    (match le, re with
     | some a, some b => some (.orFilter a b)
     | _, _ => none,
     les ++ res)

/-- `ParseWithTransform` from parser.go: an empty parameter map is
`ErrEmptyQuery`; otherwise preprocess `q`, parse it as a Go expression
(failure wraps the message in "invalid query"), and walk the Go AST.  When
the walk reports errors the expression is discarded; otherwise the walked
expression (nil when the walk produced none) is returned. -/
def parseWithTransformModel (values : Values) (tr : TransformPair) :
    Except (List String) (Option FilterExpr) :=
  if values.length = 0 then .error ["empty query"]
  else
    let q4 := preprocessQ (vget values "q")
    match scanGo (q4.length + 1) q4 with
    | .error m => .error ["invalid query: " ++ m]
    | .ok toks =>
      match goParseExpr toks with
      | .error m => .error ["invalid query: " ++ m]
      | .ok g =>
        let (e?, errs) := walkGo values tr g
        if errs = [] then .ok e? else .error errs

/-! ## Parser, v2: the astBuilder-based `ParseQuery`

Modelled from the spec: the `ParseQuery`/`ParseQueryWithTransform` entry
point that drives the astBuilder is part of this repository (its tests are
`src/query/filter/parser_test.go`, and criteria.go supplies its lexer and
builder) but its own source file is not under src/.  Per the spec's §4.5
Parse: extract `q` and the `filter[<id>]` groups; if `q` is absent or the
set of referenced identifiers is empty, return `IdentityFilter{}`; otherwise
tokenize `q`, run the AST builder, and substitute each VARIABLE leaf with an
`AtomicFilter` built from its parameter group (failing if any of
name/condition/value is missing) passed through the transformer, mapping
AND/OR/NOT nodes recursively. -/

/-- Whitespace-splitting of the `q` string (Go `strings.Fields`),
accumulating the current word in reverse. -/
def fieldsAux : List Char → List Char → List String
  | [], acc => if acc = [] then [] else [String.mk acc.reverse]
  | c :: rest, acc =>
    if c = ' ' then
      if acc = [] then fieldsAux rest []
      else String.mk acc.reverse :: fieldsAux rest []
    else fieldsAux rest (c :: acc)

def fieldsOf (s : String) : List String := fieldsAux s.data []

/-- Modelled from the spec: the leaf-substitution walk of §4.5 Parse over a
built AST. -/
def substNode (params : Values) (tr : Transform) : Node → Except String FilterExpr
  | .leafNode tok =>
    if tok.symbol = .var then
      let n := vget params (keyName tok.value)
      let c := vget params (keyCondition tok.value)
      let v := vget params (keyValue tok.value)
      if n = "" ∨ c = "" ∨ v = "" then
        .error ("incomplete filter parameter group for " ++ tok.value)
      else tr ⟨n, c, v⟩
    else .error "malformed tree"
  | .unaryNode tok l =>
    if tok.symbol = .opNOT then
      match substNode params tr l with
      | .error e => .error e
      | .ok x => .ok (.notFilter x)
    else .error "malformed tree"
  | .binaryNode tok l r =>
    match tok.symbol with
    | .opAND =>
      match substNode params tr l, substNode params tr r with
      | .ok a, .ok b => .ok (.andFilter a b)
      | .error e, _ => .error e
      | _, .error e => .error e
    | .opOR =>
      match substNode params tr l, substNode params tr r with
      | .ok a, .ok b => .ok (.orFilter a b)
      | .error e, _ => .error e
      | _, .error e => .error e
    | _ => .error "malformed tree"
  | .rightNode _ _ => .error "malformed tree"

/-- Modelled from the spec: `ParseQueryWithTransform` (§4.5 Parse), the
astBuilder-based parse entry point whose source file is missing from src/. -/
def parseQueryWithTransformModel (params : Values) (tr : Transform) :
    Except String FilterExpr :=
  let toks := fieldsOf (vget params "q")
  let idents := toks.filter (fun t => symbolOf t == Symbol.var)
  if idents.isEmpty then .ok .identityFilter
  else
    match buildModel toks with
    | .error e => .error e
    | .ok n => substNode params tr n

/-- Modelled from the spec: `ParseQuery` uses the passthrough transformer. -/
def parseQueryModel (params : Values) : Except String FilterExpr :=
  parseQueryWithTransformModel params passthroughTransform

/-! ## Concrete fixtures used by the theorems -/

/-- A tree with an atomic leaf beside a NOT: `And([a eq 1], Not([b eq 2]))`. -/
def notBesideAtom : FilterExpr :=
  .andFilter (.filter "a" "eq" "1") (.notFilter (.filter "b" "eq" "2"))

/-- The tree actually recovered when `notBesideAtom` is serialized by
`Generate` and re-parsed: both leaves resolve to the `b` criteria. -/
def notBesideAtomReparsed : FilterExpr :=
  .andFilter (.filter "b" "eq" "2") (.notFilter (.filter "b" "eq" "2"))

/-- Parameter map with `q = "brand"` and a complete `filter[brand]` group. -/
def brandVals : Values :=
  [("q", "brand"), ("filter[brand][name]", "b"),
   ("filter[brand][condition]", "eq"), ("filter[brand][value]", "1")]

/-- Parameter map with an uppercase `q = "FOO"` and a complete `filter[foo]`
group under the lowercased identifier. -/
def fooVals : Values :=
  [("q", "FOO"), ("filter[foo][name]", "f1"),
   ("filter[foo][condition]", "eq"), ("filter[foo][value]", "5")]

/-- A transformer that rejects every leaf, used to make both children of a
composite fail. -/
def boomPair : TransformPair := fun _ => (none, some "boom")

/-- Parameter map with `q = "p1 and p2"` and complete groups for both. -/
def twoLeafVals : Values :=
  [("q", "p1 and p2"),
   ("filter[p1][name]", "x"), ("filter[p1][condition]", "eq"), ("filter[p1][value]", "1"),
   ("filter[p2][name]", "y"), ("filter[p2][condition]", "eq"), ("filter[p2][value]", "2")]

/-! ## Closed evaluation lemmas for the keyword classifier -/

lemma symbolOf_or : symbolOf "OR" = .opOR := rfl

lemma symbolOf_and : symbolOf "AND" = .opAND := rfl

lemma symbolOf_not : symbolOf "NOT" = .opNOT := rfl

/-! ## Claims -/

/-- C1: binary operators are resolved per the precedence table
NOT=3 > AND=2 > OR=1, all left-associative; in particular, for any three
variable tokens, `a OR b AND c` parses as `Or(a, And(b, c))`,
`a AND b OR c` parses as `Or(And(a, b), c)`, and `a AND b AND c` parses
left-associatively as `And(And(a, b), c)`. -/
theorem C1_precedence_left_assoc (a b c : String)
    (ha : symbolOf a = .var) (hb : symbolOf b = .var) (hc : symbolOf c = .var) :
    symbolPrecedence .opNOT = 3 ∧ symbolPrecedence .opAND = 2 ∧
    symbolPrecedence .opOR = 1 ∧
    symbolAssociativity .opNOT = .left ∧ symbolAssociativity .opAND = .left ∧
    symbolAssociativity .opOR = .left ∧
    buildModel [a, "OR", b, "AND", c]
      = .ok (binNode "OR" (leaf a) (binNode "AND" (leaf b) (leaf c))) ∧
    buildModel [a, "AND", b, "OR", c]
      = .ok (binNode "OR" (binNode "AND" (leaf a) (leaf b)) (leaf c)) ∧
    buildModel [a, "AND", b, "AND", c]
      = .ok (binNode "AND" (binNode "AND" (leaf a) (leaf b)) (leaf c)) := by
  refine ⟨rfl, rfl, rfl, rfl, rfl, rfl, ?_, ?_, ?_⟩ <;>
    simp [buildModel, primaryF, parseNodeF, innerLoopF, lexNext, lexPeek, tokenFromString,
      isOperation, leaf, binNode, ha, hb, hc, symbolOf_or, symbolOf_and, symbolPrecedence,
      symbolAssociativity]

/-- Witness for C1 at the spec's own examples `p1`, `p2`, `p3`. -/
theorem C1_precedence_witness :
    buildModel ["p1", "OR", "p2", "AND", "p3"]
      = .ok (binNode "OR" (leaf "p1") (binNode "AND" (leaf "p2") (leaf "p3"))) ∧
    buildModel ["p1", "AND", "p2", "OR", "p3"]
      = .ok (binNode "OR" (binNode "AND" (leaf "p1") (leaf "p2")) (leaf "p3")) ∧
    buildModel ["p1", "AND", "p2", "AND", "p3"]
      = .ok (binNode "AND" (binNode "AND" (leaf "p1") (leaf "p2")) (leaf "p3")) := by
  have h := C1_precedence_left_assoc "p1" "p2" "p3" (by decide) (by decide) (by decide)
  exact ⟨h.2.2.2.2.2.2.1, h.2.2.2.2.2.2.2.1, h.2.2.2.2.2.2.2.2⟩

/-- C2: the serialize/parse round trip fails on `And([a eq 1], Not([b eq 2]))`.
`Generate` reports no error, but `EvaluateNotFilter` restarts the positional
counter, so both leaves are named `p01` and the `b` triple overwrites the
`a` triple; re-parsing yields a tree whose rendering differs from the
original's. -/
theorem C2_roundtrip_failure_eval :
    (generateModel notBesideAtom []).2 = [] ∧
    parseWithTransformModel (generateModel notBesideAtom []).1 passthroughPair
      = .ok (some notBesideAtomReparsed) ∧
    filterExprString notBesideAtomReparsed ≠ filterExprString notBesideAtom := by
  decide

/-- C3: serializing `And([a eq 1], Not([b eq 2]))` does not draw identifiers
from one shared counter: the NOT branch allocates a fresh counter, both
leaves are assigned `p01`, the emitted `q` references `p01` twice, no `p02`
group exists, and the left leaf's triple has been overwritten by the right
leaf's. -/
theorem C3_counter_reset_eval :
    vget (generateModel notBesideAtom []).1 "q" = "p01 and not p01" ∧
    vget (generateModel notBesideAtom []).1 (keyName "p01") = "b" ∧
    vhas (generateModel notBesideAtom []).1 (keyName "p02") = false := by
  decide

/-- C4: serializing a NOT node does not put the operand's text after a
`"NOT "` prefix: `BuildQuery` (builder.go) emits the literal format string
`"NOT %s"` (the `fmt.Sprintf` call is missing) while reporting no error,
and `Generate` (generator.go) prefixes lowercase `"not "`. -/
theorem C4_not_prefix_eval :
    vget (buildQueryModel (.notFilter (.filter "a" "eq" "1"))).1 "q" = "NOT %s" ∧
    (buildQueryModel (.notFilter (.filter "a" "eq" "1"))).2 = [] ∧
    vget (generateModel (.notFilter (.filter "a" "eq" "1")) []).1 "q" = "not p01" := by
  decide

/-- C5: on an atomic name with no registered entry, the v2 `TransformerMux`
(criteria.go) fails with the "unknown token" error in strict mode but in
lenient mode invokes a method on the nil interface (run-time panic) instead
of falling back to passthrough; the v1 registry (part_008) does implement
the claimed behavior: lenient passthrough, strict "unknown filter" error. -/
theorem C5_lenient_mux_eval :
    muxTransformFilterToken true [] ⟨"brand", "eq", "1"⟩
      = .err "unknown token \x27brand\x27" ∧
    muxTransformFilterToken false [] ⟨"brand", "eq", "1"⟩ = .nilPanic ∧
    v1MuxTransformCriteria [] ⟨"brand", "eq", "1"⟩ = .ok (.filter "brand" "eq" "1") ∧
    v1StrictMuxTransformCriteria [] ⟨"brand", "eq", "1"⟩
      = .error "unknown filter: brand" := by
  decide

/-- C6: when `q` is absent from the parameter map, or the set of referenced
identifiers in `q` is empty, the astBuilder-based parse succeeds with
`IdentityFilter`, which stringifies as `"TRUE"`. -/
theorem C6_identity_default (params : Values) (tr : Transform)
    (h : vhas params "q" = false ∨
      (fieldsOf (vget params "q")).filter (fun t => symbolOf t == Symbol.var) = []) :
    parseQueryWithTransformModel params tr = .ok .identityFilter ∧
    filterExprString .identityFilter = "TRUE" := by
  refine ⟨?_, rfl⟩
  have hid : (fieldsOf (vget params "q")).filter (fun t => symbolOf t == Symbol.var) = [] := by
    rcases h with h | h
    · have hq : vget params "q" = "" := by
        unfold vget
        unfold vhas at h
        cases hf : List.find? (fun p => p.1 == "q") params <;> simp [hf] at h ⊢
      rw [hq]
      decide
    · exact h
  simp [parseQueryWithTransformModel, hid]

/-- Witness for C6 at the empty parameter map. -/
theorem C6_identity_default_witness :
    parseQueryWithTransformModel [] passthroughTransform = .ok .identityFilter ∧
    filterExprString .identityFilter = "TRUE" :=
  C6_identity_default [] passthroughTransform (by decide)

/-- C7 counterexample: the token stream `["p2", "p3", "and"]` ends
immediately after an operator, yet the AST builder succeeds (it stops at the
unconsumed second variable and discards everything after it), refuting the
claim that every stream ending immediately after an operator fails. -/
theorem C7_trailing_operator_counterexample :
    buildModel ["p2", "p3", "and"] = .ok (leaf "p2") := by
  decide

/-- C7 (amended): an empty token stream fails; a stream whose first token is
AND or OR fails; and a stream in which the trailing operator is actually
consumed — a single variable followed by one operator — fails; but a
trailing operator beyond the consumed prefix is silently discarded. -/
theorem C7_syntax_errors_amended :
    buildModel [] = .error "empty token list" ∧
    (∀ (t : String) (rest : List String),
      symbolOf t = .opAND ∨ symbolOf t = .opOR →
      buildModel (t :: rest) = .error "expected variable as first token") ∧
    (∀ v op : String, symbolOf v = .var → isOperation (symbolOf op) = true →
      buildModel [v, op] = .error "empty token list") := by
  refine ⟨by decide, ?_, ?_⟩
  · intro t rest h
    rcases h with h | h <;>
      simp [buildModel, primaryF, lexNext, lexPeek, tokenFromString, h]
  · intro v op hv hop
    cases hs : symbolOf op <;> simp [isOperation, hs] at hop <;>
      simp [buildModel, primaryF, parseNodeF, innerLoopF, lexNext, lexPeek,
        tokenFromString, isOperation, symbolPrecedence, hv, hs]

/-- Witness for C7's amended statement. -/
theorem C7_syntax_errors_witness :
    buildModel ["AND", "p2", "AND", "p3"] = .error "expected variable as first token" ∧
    buildModel ["p1", "AND"] = .error "empty token list" :=
  ⟨C7_syntax_errors_amended.2.1 "AND" ["p2", "AND", "p3"] (Or.inl (by decide)),
   C7_syntax_errors_amended.2.2 "p1" "AND" (by decide) (by decide)⟩

/-- C8: composite evaluation evaluates both children even when one fails and
joins every failure.  For the generator: a failing left child (identity)
does not stop the right child, whose parameter group is still emitted; two
failing children contribute two collected errors.  For the parser walk: when
both leaf transforms fail, both errors are reported together. -/
theorem C8_error_aggregation :
    (genEval (FilterExpr.andFilter .identityFilter (.filter "a" "eq" "1")) 0 []).2.2.1
      = setGroup [] "p01" "a" "eq" "1" ∧
    (genEval (FilterExpr.andFilter .identityFilter (.filter "a" "eq" "1")) 0 []).2.2.2
      = ["unsupported operation"] ∧
    (genEval (FilterExpr.orFilter .identityFilter .customFilter) 0 []).2.2.2
      = ["unsupported operation", "unsupported operation"] ∧
    parseWithTransformModel twoLeafVals boomPair = .error ["boom", "boom"] := by
  decide

/-- C9: two adjacent variable tokens with no operator between them parse to
the leaf for the first variable with no error; every token after the first
variable — whatever it is — is silently discarded. -/
theorem C9_adjacent_vars_discard (v w : String) (rest : List String)
    (hv : symbolOf v = .var) (hw : symbolOf w = .var) :
    buildModel (v :: w :: rest) = .ok (leaf v) := by
  simp [buildModel, primaryF, parseNodeF, innerLoopF, lexNext, lexPeek, tokenFromString,
    isOperation, leaf, hv, hw]

/-- Witness for C9 at the test's own stream `["p2", "p3"]`. -/
theorem C9_adjacent_vars_witness :
    buildModel ["p2", "p3"] = .ok (leaf "p2") :=
  C9_adjacent_vars_discard "p2" "p3" [] (by decide) (by decide)

/-- C10: `ParseWithTransform` lowercases `q` and replaces `and`/`or`/`not`
as raw substrings: `"brand"` becomes `"br&&"`, so a complete
`filter[brand]` group never parses to its atomic filter (the parse fails);
and an uppercase identifier `FOO` is resolved against its lowercased group
`filter[foo]`. -/
theorem C10_substring_replacement :
    preprocessQ "brand" = "br&&".data ∧
    parseWithTransformModel brandVals passthroughPair
      = .error ["invalid query: expected operand"] ∧
    parseWithTransformModel brandVals passthroughPair
      ≠ .ok (some (.filter "b" "eq" "1")) ∧
    parseWithTransformModel fooVals passthroughPair
      = .ok (some (.filter "f1" "eq" "5")) := by
  decide

end JsonapiFilter
